import Mathlib

/-!
Shallow embedding of the UNO game engine (`uno.py`) and verification of
its specification claims.

The embedding translates the Python source directly:
- `Color`, `CardType`, `Card` mirror the enums and the `Card` class;
- Python lists become `List`; `list.pop()` (draw from the top of the deck)
  takes the last element, `list.insert(0, x)` (return to the bottom) conses;
- the two nondeterministic inputs (`random.shuffle` / `random.random` /
  `random.choice` and the remote Gemini reply) become explicit parameters,
  so every behavior of the source corresponds to some parameter value;
- the game always runs with exactly two players (`setup_game` builds the
  list `[human, computer]`), so the player list is embedded as two fields
  and indices are taken modulo 2, matching Python's
  `(index + direction) % len(players)`.
-/

/-- Mirrors `class Color(Enum)` (uno.py lines 21-26). -/
inductive Color where
  | RED
  | BLUE
  | GREEN
  | YELLOW
  | WILD
deriving DecidableEq

/-- Mirrors `class CardType(Enum)` (uno.py lines 28-34). -/
inductive CardType where
  | NUMBER
  | SKIP
  | REVERSE
  | DRAW_TWO
  | WILD
  | WILD_DRAW_FOUR
deriving DecidableEq

/-- Mirrors `class Difficulty(Enum)` (uno.py lines 36-39). -/
inductive Difficulty where
  | EASY
  | MEDIUM
  | HARD
deriving DecidableEq

/-- Mirrors `class Card` (uno.py lines 41-45): `value` is `None` for
non-number cards, so it is an `Option Nat` here. -/
structure Card where
  color : Color
  card_type : CardType
  value : Option Nat
deriving DecidableEq

/-- Mirrors `Card.can_play_on` (uno.py lines 69-76).  Note that when both
cards are `NUMBER` the Python code returns `self.value == other.value`
without falling through to the kind comparison. -/
def Card.can_play_on (self : Card) (other_card : Card) (current_color : Color) : Bool :=
  if self.card_type = CardType.WILD ∨ self.card_type = CardType.WILD_DRAW_FOUR then
    true
  else if self.color = current_color then
    true
  else if other_card.card_type = CardType.NUMBER ∧ self.card_type = CardType.NUMBER then
    self.value = other_card.value
  else
    self.card_type = other_card.card_type

/-- Modelled from the spec (claim C4's own wording, for comparison with
`Card.can_play_on`): legal iff the candidate is a wild kind, or matches
the active color, or both cards are Number kind sharing the same number,
or the kinds are equal. -/
def canPlaySpec (candidate : Card) (topCard : Card) (activeColor : Color) : Bool :=
  candidate.card_type = CardType.WILD ∨ candidate.card_type = CardType.WILD_DRAW_FOUR
    ∨ candidate.color = activeColor
    ∨ (candidate.card_type = CardType.NUMBER ∧ topCard.card_type = CardType.NUMBER
        ∧ candidate.value = topCard.value)
    ∨ candidate.card_type = topCard.card_type

/-- The four real colors, in the order Python iterates them
(`colors = [Color.RED, Color.BLUE, Color.GREEN, Color.YELLOW]`, line 302). -/
def realColors : List Color := [Color.RED, Color.BLUE, Color.GREEN, Color.YELLOW]

/-- Number cards of `Deck._create_deck` (uno.py lines 304-308): per color
one 0 and two each of 1-9. -/
def numberCards : List Card :=
  realColors.flatMap fun color =>
    Card.mk color CardType.NUMBER (some 0) ::
      (List.range 9).flatMap fun n =>
        [Card.mk color CardType.NUMBER (some (n + 1)),
         Card.mk color CardType.NUMBER (some (n + 1))]

/-- Action cards of `Deck._create_deck` (uno.py lines 310-314): per color
two each of Skip / Reverse / Draw Two. -/
def actionCards : List Card :=
  realColors.flatMap fun color =>
    (List.range 2).flatMap fun _ =>
      [Card.mk color CardType.SKIP none,
       Card.mk color CardType.REVERSE none,
       Card.mk color CardType.DRAW_TWO none]

/-- Wild cards of `Deck._create_deck` (uno.py lines 316-318): four each of
Wild and Wild Draw Four, appended alternately. -/
def wildCards : List Card :=
  (List.range 4).flatMap fun _ =>
    [Card.mk Color.WILD CardType.WILD none,
     Card.mk Color.WILD CardType.WILD_DRAW_FOUR none]

/-- Mirrors `Deck._create_deck` (uno.py lines 301-318): numbers, then
action cards, then wilds, in Python append order. -/
def create_deck : List Card := numberCards ++ actionCards ++ wildCards

/-- Claim C4: `can_play_on` is pure and total (trivially, being a Lean
function), but it is NOT equivalent to the claimed disjunction: a Red 3
candidate on a Blue 5 top card with active color Blue satisfies the
claim's "candidate.kind equals topCard.kind" disjunct (both are Number),
yet the code returns false because the both-Number branch compares the
numbers and returns that comparison without falling through. -/
theorem can_play_on_number_kind_counterexample :
    Card.can_play_on ⟨Color.RED, CardType.NUMBER, some 3⟩
        ⟨Color.BLUE, CardType.NUMBER, some 5⟩ Color.BLUE = false
      ∧ canPlaySpec ⟨Color.RED, CardType.NUMBER, some 3⟩
        ⟨Color.BLUE, CardType.NUMBER, some 5⟩ Color.BLUE = true := by
  decide

/-- Claim C4 (amended): `can_play_on candidate top color` returns true iff
the candidate is a wild kind, or matches the active color, or both cards
are Number kind with the same number, or the kinds are equal AND that
common kind is not Number (a kind match between two Number cards of
different numbers is rejected).  Purity and totality hold because the
function is a total Lean function of its three arguments. -/
theorem can_play_on_characterization (candidate topCard : Card) (activeColor : Color) :
    Card.can_play_on candidate topCard activeColor = true ↔
      (candidate.card_type = CardType.WILD ∨ candidate.card_type = CardType.WILD_DRAW_FOUR
        ∨ candidate.color = activeColor
        ∨ (candidate.card_type = CardType.NUMBER ∧ topCard.card_type = CardType.NUMBER
            ∧ candidate.value = topCard.value)
        ∨ (candidate.card_type = topCard.card_type
            ∧ ¬ candidate.card_type = CardType.NUMBER)) := by
  unfold Card.can_play_on
  split_ifs with h1 h2 h3
  · constructor
    · intro _
      exact h1.imp id (fun h => Or.inl h)
    · intro _
      rfl
  · simp [h2]
  · constructor
    · intro hv
      refine Or.inr (Or.inr (Or.inr (Or.inl ⟨h3.2, h3.1, ?_⟩)))
      simpa using hv
    · intro hcases
      rcases hcases with h | h | h | h | h
      · exact absurd (Or.inl h) h1
      · exact absurd (Or.inr h) h1
      · exact absurd h h2
      · simpa using h.2.2
      · exact absurd h3.2 h.2
  · constructor
    · intro hk
      have hk' : candidate.card_type = topCard.card_type := by simpa using hk
      refine Or.inr (Or.inr (Or.inr (Or.inr ⟨hk', ?_⟩)))
      intro hnum
      exact h3 ⟨hk' ▸ hnum, hnum⟩
    · intro hcases
      rcases hcases with h | h | h | h | h
      · exact absurd (Or.inl h) h1
      · exact absurd (Or.inr h) h1
      · exact absurd h h2
      · exact absurd ⟨h.2.1, h.1⟩ h3
      · simpa using h.1

/-- Claim C7: the deck does NOT contain 8 action cards per color: the
code appends 2 each of Skip/Reverse/DrawTwo per color, i.e. 6 action
cards per color (here counted for Red). -/
theorem action_card_count_counterexample :
    create_deck.countP (fun c =>
        c.color = Color.RED ∧
          (c.card_type = CardType.SKIP ∨ c.card_type = CardType.REVERSE
            ∨ c.card_type = CardType.DRAW_TWO)) = 6
      ∧ (6 : Nat) ≠ 8 := by
  decide

/-- Claim C7 (amended): every freshly built deck has exactly 108 cards;
for each real color exactly 19 number cards (one 0, two each of 1-9) and
exactly 6 action cards (2 each of Skip/Reverse/DrawTwo); plus 8 wild
cards, exactly 4 of each wild kind. -/
theorem deck_composition :
    create_deck.length = 108
      ∧ (∀ c ∈ realColors,
          create_deck.countP (fun k => k.color = c ∧ k.card_type = CardType.NUMBER) = 19
            ∧ create_deck.countP (fun k => k.color = c ∧ k.card_type = CardType.NUMBER
                ∧ k.value = some 0) = 1
            ∧ (∀ n ∈ List.range 9,
                create_deck.countP (fun k => k.color = c ∧ k.card_type = CardType.NUMBER
                  ∧ k.value = some (n + 1)) = 2)
            ∧ create_deck.countP (fun k => k.color = c ∧ k.card_type = CardType.SKIP) = 2
            ∧ create_deck.countP (fun k => k.color = c ∧ k.card_type = CardType.REVERSE) = 2
            ∧ create_deck.countP (fun k => k.color = c ∧ k.card_type = CardType.DRAW_TWO) = 2
            ∧ create_deck.countP (fun k => k.color = c
                ∧ (k.card_type = CardType.SKIP ∨ k.card_type = CardType.REVERSE
                    ∨ k.card_type = CardType.DRAW_TWO)) = 6)
      ∧ create_deck.countP (fun k => k.card_type = CardType.WILD) = 4
      ∧ create_deck.countP (fun k => k.card_type = CardType.WILD_DRAW_FOUR) = 4
      ∧ create_deck.countP (fun k => k.color = Color.WILD) = 8 := by
  decide

/-- Witness for `deck_composition` at the color Green and the number 7. -/
theorem deck_composition_witness :
    Color.GREEN ∈ realColors ∧ (6 : Nat) ∈ List.range 9
      ∧ create_deck.countP (fun k => k.color = Color.GREEN ∧ k.card_type = CardType.NUMBER
          ∧ k.value = some 7) = 2 := by
  refine ⟨by decide, by decide, ?_⟩
  exact ((deck_composition.2.1 Color.GREEN (by decide)).2.2.1 6 (by decide))

/-- Truthiness of the optional string hint, mirroring Python's
`if wild_color_hint:` (uno.py line 281): `None` and the empty string are
falsy, every other string is truthy. -/
def hintTruthy : Option String → Bool
  | none => false
  | some s => decide (s ≠ "")

/-- Mirrors `color_map.get(wild_color_hint, Color.RED)` (uno.py lines
282-286): an unrecognized hint string falls back to Red. -/
def colorMapGet (hint : String) : Color :=
  if hint = "Red" then Color.RED
  else if hint = "Blue" then Color.BLUE
  else if hint = "Green" then Color.GREEN
  else if hint = "Yellow" then Color.YELLOW
  else Color.RED

/-- The per-color tally of `color_counts` (uno.py lines 288-291); only
the four real colors are keys, so a count is taken per real color. -/
def countColor (hand : List Card) (c : Color) : Nat :=
  hand.countP (fun card => decide (card.color = c))

/-- Mirrors `max(color_counts, key=color_counts.get)` (uno.py line 293):
Python iterates the keys in insertion order Red, Blue, Green, Yellow and
keeps the first maximum (replacing only on a strictly greater count). -/
def maxColorByCount (hand : List Card) : Color :=
  [Color.BLUE, Color.GREEN, Color.YELLOW].foldl
    (fun best c => if countColor hand c > countColor hand best then c else best)
    Color.RED

/-- Mirrors `AIStrategy.choose_wild_color` (uno.py lines 280-293). -/
def choose_wild_color (hand : List Card) (wild_color_hint : Option String) : Color :=
  if hintTruthy wild_color_hint then
    colorMapGet (wild_color_hint.getD "")
  else
    maxColorByCount hand

/-- The aggressive kinds `['Wild Draw Four', 'Draw Two', 'Skip']` used by
the fallback (uno.py line 195), the medium strategy (lines 242-245) and,
negated, the easy strategy (lines 271-274). -/
def isAggressive (c : Card) : Bool :=
  decide (c.card_type = CardType.WILD_DRAW_FOUR ∨ c.card_type = CardType.DRAW_TWO
    ∨ c.card_type = CardType.SKIP)

/-- The decision dictionary produced by `GeminiAI`: a card index (an
arbitrary integer, since it comes from a remote reply) and an optional
wild-color string. -/
structure AiDecision where
  card_index : Int
  wild_color : Option String
deriving DecidableEq

/-- Mirrors the loop `for i, card in enumerate(playable_cards): if
card['type'] in ['Wild Draw Four', 'Draw Two', 'Skip']: return ...`
(uno.py lines 194-196): index of the first aggressive card, counting
from `n`. -/
def aggressiveIdx : List Card → Nat → Option Nat
  | [], _ => none
  | c :: cs, n => if isAggressive c then some n else aggressiveIdx cs (n + 1)

/-- Mirrors `GeminiAI._fallback_choice` (uno.py lines 188-198): with an
opponent at one card, the first aggressive playable card (if any) with
wild color `'Red'`; in every other case index 0 with wild color `'Red'`. -/
def fallback_choice (playable_cards : List Card) (opponent_hand_size : Nat) : AiDecision :=
  if opponent_hand_size = 1 then
    match aggressiveIdx playable_cards 0 with
    | some i => ⟨(i : Int), some "Red"⟩
    | none => ⟨0, some "Red"⟩
  else ⟨0, some "Red"⟩

/-- The four ways the remote interaction can end, one per control path of
`GeminiAI.get_card_choice` (uno.py lines 90-127): non-200 HTTP status
(line 121), a raised exception such as a timeout (line 125), a reply that
`_parse_ai_response` fails to parse (lines 183-186), and a successfully
parsed reply carrying an index and an optional wild color. -/
inductive RemoteOutcome where
  | httpError
  | transportError
  | parseFailure
  | parsed (card_index : Int) (wild_color : Option String)

/-- The decision `GeminiAI.get_card_choice` hands back on each outcome:
HTTP errors and transport errors go through `_fallback_choice`; a parse
failure returns `{'card_index': 0, ..., 'wild_color': None}` (uno.py
line 186), NOT `_fallback_choice`. -/
def get_card_choice (outcome : RemoteOutcome) (playable_cards : List Card)
    (opponent_hand_size : Nat) : AiDecision :=
  match outcome with
  | .httpError => fallback_choice playable_cards opponent_hand_size
  | .transportError => fallback_choice playable_cards opponent_hand_size
  | .parseFailure => ⟨0, none⟩
  | .parsed i w => ⟨i, w⟩

/-- Junk card used as the default of `List.getD` / `List.headD`; every
access below is guarded by a bounds proof, so it is never produced. -/
def dfltCard : Card := ⟨Color.RED, CardType.NUMBER, some 0⟩

/-- Mirrors `AIStrategy._hard_ai_choice` (uno.py lines 214-235): bounds
check `0 <= card_index < len(playable_cards)`; out of range falls back to
`playable_cards[0]` with no wild-color hint. -/
def hard_ai_choice (outcome : RemoteOutcome) (playable_cards : List Card)
    (opponent_hand_size : Nat) : Card × Option String :=
  let d := get_card_choice outcome playable_cards opponent_hand_size
  if 0 ≤ d.card_index ∧ d.card_index < (playable_cards.length : Int) then
    (playable_cards.getD d.card_index.toNat dfltCard, d.wild_color)
  else
    (playable_cards.headD dfltCard, none)

/-- The fixed priority order of `AIStrategy._medium_ai_choice` (uno.py
lines 249-255). -/
def priority_order : List CardType :=
  [CardType.WILD_DRAW_FOUR, CardType.DRAW_TWO, CardType.SKIP,
   CardType.REVERSE, CardType.WILD]

/-- Mirrors the loop `for card_type in priority_order: matching_cards =
[...]; if matching_cards: return matching_cards[0]` (uno.py lines
257-260). -/
def scanPriority (playable_cards : List Card) : List CardType → Option Card
  | [] => none
  | t :: ts =>
    match playable_cards.filter (fun c => decide (c.card_type = t)) with
    | c :: _ => some c
    | [] => scanPriority playable_cards ts

/-- Mirrors `max(number_cards, key=lambda x: x.value)` (uno.py line 264):
Python's `max` keeps the first element and replaces it only on a strictly
greater key, so the first maximum wins.  Number cards always carry
`some n`, so defaulting a missing value to 0 is unreachable there. -/
def maxByValue (c : Card) (cs : List Card) : Card :=
  cs.foldl (fun best x => if x.value.getD 0 > best.value.getD 0 then x else best) c

/-- Mirrors `AIStrategy._medium_ai_choice` (uno.py lines 237-267). -/
def medium_ai_choice (playable_cards : List Card) (opponent_hand_size : Nat) :
    Card × Option String :=
  if opponent_hand_size = 1 ∧ playable_cards.filter isAggressive ≠ [] then
    ((playable_cards.filter isAggressive).headD dfltCard, none)
  else
    match scanPriority playable_cards priority_order with
    | some c => (c, none)
    | none =>
      match playable_cards.filter (fun c => decide (c.card_type = CardType.NUMBER)) with
      | n :: ns => (maxByValue n ns, none)
      | [] => (playable_cards.headD dfltCard, none)

/-- `random.choice(cards)` returns some element of a non-empty list; the
nondeterministic pick is embedded as an arbitrary index taken modulo the
length, which ranges over exactly the elements of the list. -/
def randomChoice (cards : List Card) (pick : Nat) : Card :=
  cards.getD (pick % cards.length) dfltCard

/-- Mirrors `AIStrategy._easy_ai_choice` (uno.py lines 269-278): `coin`
embeds `random.random() < 0.3`; `pick1`/`pick2` embed the two
`random.choice` calls. -/
def easy_ai_choice (playable_cards : List Card) (coin : Bool) (pick1 pick2 : Nat) :
    Card × Option String :=
  if coin ∧ playable_cards.length > 1 then
    match playable_cards.filter (fun c => !(isAggressive c)) with
    | c :: cs => (randomChoice (c :: cs) pick1, none)
    | [] => (randomChoice playable_cards pick2, none)
  else (randomChoice playable_cards pick2, none)

/-- Mirrors `AIStrategy.choose_card` (uno.py lines 206-212): Hard with a
Gemini handle goes remote, Medium is the heuristic, anything else
(including Hard without a handle) is the easy strategy. -/
def choose_card (difficulty : Difficulty) (has_gemini : Bool) (outcome : RemoteOutcome)
    (coin : Bool) (pick1 pick2 : Nat) (playable_cards : List Card)
    (opponent_hand_size : Nat) : Card × Option String :=
  if difficulty = Difficulty.HARD ∧ has_gemini then
    hard_ai_choice outcome playable_cards opponent_hand_size
  else if difficulty = Difficulty.MEDIUM then
    medium_ai_choice playable_cards opponent_hand_size
  else
    easy_ai_choice playable_cards coin pick1 pick2

/-- Claim C8: an invalid non-empty hint does NOT fall back to the
hand-count choice: with a hand holding only a Blue card, the hint
`"Purple"` yields Red (via `color_map.get(hint, Color.RED)`), while the
highest-count color of the hand is Blue. -/
theorem wild_color_invalid_hint_counterexample :
    choose_wild_color [⟨Color.BLUE, CardType.NUMBER, some 4⟩] (some "Purple") = Color.RED
      ∧ maxColorByCount [⟨Color.BLUE, CardType.NUMBER, some 4⟩] = Color.BLUE := by
  decide

/-- Claim C6: a malformed (unparsable) remote reply does NOT collapse to
the deterministic fallback of `_fallback_choice`: with opponent hand size
1 and a Draw Two present, the parse-failure path of `_parse_ai_response`
returns index 0 with no wild color, selecting the Blue 5, while
`_fallback_choice` would select index 1 (the Draw Two) with hint Red. -/
theorem remote_failure_fallback_counterexample :
    hard_ai_choice RemoteOutcome.parseFailure
        [⟨Color.BLUE, CardType.NUMBER, some 5⟩, ⟨Color.RED, CardType.DRAW_TWO, none⟩] 1
      = (⟨Color.BLUE, CardType.NUMBER, some 5⟩, none)
   ∧ fallback_choice
        [⟨Color.BLUE, CardType.NUMBER, some 5⟩, ⟨Color.RED, CardType.DRAW_TWO, none⟩] 1
      = ⟨1, some "Red"⟩ := by
  decide

lemma aggressiveIdx_spec (l : List Card) :
    ∀ n i, aggressiveIdx l n = some i →
      n ≤ i ∧ i - n < l.length ∧ isAggressive (l.getD (i - n) dfltCard) = true
        ∧ ∀ k, k < i - n → isAggressive (l.getD k dfltCard) = false := by
  induction l with
  | nil =>
    intro n i h
    simp [aggressiveIdx] at h
  | cons c cs ih =>
    intro n i h
    unfold aggressiveIdx at h
    by_cases hc : isAggressive c
    · rw [if_pos hc] at h
      injection h with h
      subst h
      refine ⟨le_refl _, by simp, by simpa using hc, ?_⟩
      intro k hk
      omega
    · rw [if_neg hc] at h
      obtain ⟨h1, h2, h3, h4⟩ := ih (n + 1) i h
      refine ⟨by omega, by simp; omega, ?_, ?_⟩
      · have hin : i - n = (i - (n + 1)) + 1 := by omega
        rw [hin]
        simpa using h3
      · intro k hk
        match k with
        | 0 =>
          simpa using (Bool.not_eq_true _).mp hc
        | k + 1 =>
          have hk' : k < i - (n + 1) := by omega
          simpa using h4 k hk'

lemma aggressiveIdx_zero (l : List Card) (i : Nat) (h : aggressiveIdx l 0 = some i) :
    i < l.length ∧ isAggressive (l.getD i dfltCard) = true
      ∧ ∀ k, k < i → isAggressive (l.getD k dfltCard) = false := by
  obtain ⟨-, h2, h3, h4⟩ := aggressiveIdx_spec l 0 i h
  simp only [Nat.sub_zero] at h2 h3 h4
  exact ⟨h2, h3, h4⟩

lemma getD_zero_eq_headD (l : List Card) : l.getD 0 dfltCard = l.headD dfltCard := by
  cases l <;> rfl

lemma getD_mem (l : List Card) : ∀ i, i < l.length → l.getD i dfltCard ∈ l := by
  induction l with
  | nil =>
    intro i h
    simp at h
  | cons c cs ih =>
    intro i h
    match i with
    | 0 => simp
    | i + 1 =>
      have : i < cs.length := by simpa using h
      simpa using Or.inr (ih i this)

lemma headD_mem (l : List Card) (h : l ≠ []) : l.headD dfltCard ∈ l := by
  cases l with
  | nil => exact absurd rfl h
  | cons c cs => simp

lemma randomChoice_mem (l : List Card) (h : l ≠ []) (pick : Nat) :
    randomChoice l pick ∈ l := by
  have hlen : 0 < l.length := List.length_pos.mpr h
  exact getD_mem l _ (Nat.mod_lt _ hlen)

lemma maxByValue_mem : ∀ (cs : List Card) (c : Card), maxByValue c cs ∈ c :: cs := by
  intro cs
  induction cs with
  | nil =>
    intro c
    simp [maxByValue]
  | cons x xs ih =>
    intro c
    have h := ih (if x.value.getD 0 > c.value.getD 0 then x else c)
    have hstep : maxByValue c (x :: xs)
        = maxByValue (if x.value.getD 0 > c.value.getD 0 then x else c) xs := by
      simp [maxByValue]
    rw [hstep]
    rcases List.mem_cons.mp h with h1 | h1
    · rw [h1]
      by_cases hv : x.value.getD 0 > c.value.getD 0
      · rw [if_pos hv]
        exact List.mem_cons_of_mem _ (List.mem_cons_self _ _)
      · rw [if_neg hv]
        exact List.mem_cons_self _ _
    · exact List.mem_cons_of_mem _ (List.mem_cons_of_mem _ h1)

lemma scanPriority_mem (pl : List Card) :
    ∀ ts c, scanPriority pl ts = some c → c ∈ pl := by
  intro ts
  induction ts with
  | nil =>
    intro c h
    simp [scanPriority] at h
  | cons t ts ih =>
    intro c h
    unfold scanPriority at h
    cases hf : pl.filter (fun k => decide (k.card_type = t)) with
    | nil =>
      rw [hf] at h
      exact ih c h
    | cons c0 cs0 =>
      rw [hf] at h
      injection h with h
      subst h
      have hmem : c0 ∈ pl.filter (fun k => decide (k.card_type = t)) := by
        rw [hf]
        exact List.mem_cons_self _ _
      exact List.mem_of_mem_filter hmem

/-- Claim C10: for every difficulty tier and every non-empty playable
list, the card returned by `choose_card` is an element of that list; in
particular the Hard tier's bounds check on the remote index guarantees
the selection never indexes outside the list. -/
theorem choose_card_mem_playable (difficulty : Difficulty) (has_gemini : Bool)
    (outcome : RemoteOutcome) (coin : Bool) (pick1 pick2 : Nat)
    (playable_cards : List Card) (opponent_hand_size : Nat)
    (h : playable_cards ≠ []) :
    (choose_card difficulty has_gemini outcome coin pick1 pick2 playable_cards
        opponent_hand_size).1 ∈ playable_cards := by
  have hlen : 0 < playable_cards.length := List.length_pos.mpr h
  unfold choose_card
  split_ifs with h1 h2
  · simp only [hard_ai_choice]
    by_cases hb : 0 ≤ (get_card_choice outcome playable_cards opponent_hand_size).card_index
        ∧ (get_card_choice outcome playable_cards opponent_hand_size).card_index
          < (playable_cards.length : Int)
    · rw [if_pos hb]
      exact getD_mem _ _ (by omega)
    · rw [if_neg hb]
      exact headD_mem _ h
  · unfold medium_ai_choice
    split_ifs with hm
    · exact List.mem_of_mem_filter (headD_mem _ hm.2)
    · cases hscan : scanPriority playable_cards priority_order with
      | some c =>
        simp only [hscan]
        exact scanPriority_mem _ _ _ hscan
      | none =>
        simp only [hscan]
        cases hf : playable_cards.filter (fun c => decide (c.card_type = CardType.NUMBER)) with
        | cons n ns =>
          simp only [hf]
          have h1 := maxByValue_mem ns n
          have h2 : maxByValue n ns
              ∈ playable_cards.filter (fun c => decide (c.card_type = CardType.NUMBER)) := by
            rw [hf]
            exact h1
          exact List.mem_of_mem_filter h2
        | nil =>
          simp only [hf]
          exact headD_mem _ h
  · unfold easy_ai_choice
    split_ifs with he
    · cases hf : playable_cards.filter (fun c => !(isAggressive c)) with
      | cons c0 cs0 =>
        simp only [hf]
        have h1 := randomChoice_mem (c0 :: cs0) (by simp) pick1
        have h2 : randomChoice (c0 :: cs0) pick1
            ∈ playable_cards.filter (fun c => !(isAggressive c)) := by
          rw [hf]
          exact h1
        exact List.mem_of_mem_filter h2
      | nil =>
        simp only [hf]
        exact randomChoice_mem _ h pick2
    · exact randomChoice_mem _ h pick2

/-- Witness for `choose_card_mem_playable`: the Medium tier on a
singleton playable list picks that card. -/
theorem choose_card_mem_playable_witness :
    ([⟨Color.GREEN, CardType.SKIP, none⟩] : List Card) ≠ []
      ∧ (choose_card Difficulty.MEDIUM false RemoteOutcome.httpError false 0 0
          [⟨Color.GREEN, CardType.SKIP, none⟩] 3).1
        ∈ [(⟨Color.GREEN, CardType.SKIP, none⟩ : Card)] :=
  ⟨by decide,
    choose_card_mem_playable Difficulty.MEDIUM false RemoteOutcome.httpError false 0 0
      [⟨Color.GREEN, CardType.SKIP, none⟩] 3 (by decide)⟩

/-- Claim C6 (amended): HTTP non-success and transport errors (timeouts,
exceptions) both collapse to the `_fallback_choice` policy: with the
opponent at one card, the first aggressive playable card with wild-color
hint Red, otherwise the first playable card with hint Red.  A malformed
or unparsable reply instead yields index 0 with NO wild-color hint, and
an out-of-range returned index yields the first playable card with NO
hint; no failure is fatal and none is retried. -/
theorem remote_failure_modes (playable_cards : List Card) (opponent_hand_size : Nat)
    (h : playable_cards ≠ []) :
    hard_ai_choice RemoteOutcome.httpError playable_cards opponent_hand_size
        = hard_ai_choice RemoteOutcome.transportError playable_cards opponent_hand_size
  ∧ (∀ i, opponent_hand_size = 1 → aggressiveIdx playable_cards 0 = some i →
      hard_ai_choice RemoteOutcome.httpError playable_cards opponent_hand_size
          = (playable_cards.getD i dfltCard, some "Red")
        ∧ isAggressive (playable_cards.getD i dfltCard) = true
        ∧ ∀ k, k < i → isAggressive (playable_cards.getD k dfltCard) = false)
  ∧ ((opponent_hand_size ≠ 1 ∨ aggressiveIdx playable_cards 0 = none) →
      hard_ai_choice RemoteOutcome.httpError playable_cards opponent_hand_size
          = (playable_cards.headD dfltCard, some "Red"))
  ∧ hard_ai_choice RemoteOutcome.parseFailure playable_cards opponent_hand_size
      = (playable_cards.headD dfltCard, none)
  ∧ (∀ i w, i < 0 ∨ (playable_cards.length : Int) ≤ i →
      hard_ai_choice (RemoteOutcome.parsed i w) playable_cards opponent_hand_size
          = (playable_cards.headD dfltCard, none)) := by
  have hlen : 0 < playable_cards.length := List.length_pos.mpr h
  have hlen' : (0 : Int) < (playable_cards.length : Int) := by exact_mod_cast hlen
  refine ⟨rfl, ?_, ?_, ?_, ?_⟩
  · intro i hopp hidx
    subst hopp
    obtain ⟨hlt, haggr, hfirst⟩ := aggressiveIdx_zero _ _ hidx
    have hfd : get_card_choice RemoteOutcome.httpError playable_cards 1
        = ⟨(i : Int), some "Red"⟩ := by
      simp [get_card_choice, fallback_choice, hidx]
    refine ⟨?_, haggr, hfirst⟩
    simp only [hard_ai_choice, hfd]
    rw [if_pos ⟨Int.natCast_nonneg i, by exact_mod_cast hlt⟩]
    simp
  · intro hcase
    have hfd : get_card_choice RemoteOutcome.httpError playable_cards opponent_hand_size
        = ⟨0, some "Red"⟩ := by
      rcases hcase with hne | hnone
      · simp [get_card_choice, fallback_choice, hne]
      · by_cases hopp : opponent_hand_size = 1
        · simp [get_card_choice, fallback_choice, hopp, hnone]
        · simp [get_card_choice, fallback_choice, hopp]
    simp only [hard_ai_choice, hfd]
    rw [if_pos ⟨le_refl _, hlen'⟩]
    cases playable_cards <;> rfl
  · simp only [hard_ai_choice, get_card_choice]
    rw [if_pos ⟨le_refl _, hlen'⟩]
    cases playable_cards <;> rfl
  · intro i w hw
    simp only [hard_ai_choice, get_card_choice]
    rw [if_neg (by omega)]

/-- Witness for `remote_failure_modes`: a parse failure on a singleton
playable list yields that card with no wild-color hint. -/
theorem remote_failure_modes_witness :
    ([⟨Color.RED, CardType.DRAW_TWO, none⟩] : List Card) ≠ []
      ∧ hard_ai_choice RemoteOutcome.parseFailure [⟨Color.RED, CardType.DRAW_TWO, none⟩] 2
          = (⟨Color.RED, CardType.DRAW_TWO, none⟩, none) := by
  refine ⟨by decide, ?_⟩
  exact (remote_failure_modes [⟨Color.RED, CardType.DRAW_TWO, none⟩] 2
    (by decide)).2.2.2.1.trans (by decide)

/-- Claim C8 (amended): if a hint naming one of the four real colors was
supplied, that color is returned; any OTHER non-empty hint string also
short-circuits the hand count and returns Red (because
`color_map.get(hint, Color.RED)` defaults to Red); only with no hint (or
an empty one) does the choice fall back to the color with the highest
count in the hand, ties broken by the enumeration order Red, Blue,
Green, Yellow with the first maximum winning. -/
theorem choose_wild_color_characterization (hand : List Card) (hint : Option String) :
    (hint = some "Red" → choose_wild_color hand hint = Color.RED)
  ∧ (hint = some "Blue" → choose_wild_color hand hint = Color.BLUE)
  ∧ (hint = some "Green" → choose_wild_color hand hint = Color.GREEN)
  ∧ (hint = some "Yellow" → choose_wild_color hand hint = Color.YELLOW)
  ∧ (hintTruthy hint = true → hint ≠ some "Red" → hint ≠ some "Blue" →
      hint ≠ some "Green" → hint ≠ some "Yellow" →
      choose_wild_color hand hint = Color.RED)
  ∧ (hintTruthy hint = false →
      countColor hand (choose_wild_color hand hint)
          = max (max (max (countColor hand Color.RED) (countColor hand Color.BLUE))
              (countColor hand Color.GREEN)) (countColor hand Color.YELLOW)
        ∧ (choose_wild_color hand hint = Color.RED
            ∨ (choose_wild_color hand hint = Color.BLUE
                ∧ countColor hand Color.BLUE > countColor hand Color.RED)
            ∨ (choose_wild_color hand hint = Color.GREEN
                ∧ countColor hand Color.GREEN > countColor hand Color.RED
                ∧ countColor hand Color.GREEN > countColor hand Color.BLUE)
            ∨ (choose_wild_color hand hint = Color.YELLOW
                ∧ countColor hand Color.YELLOW > countColor hand Color.RED
                ∧ countColor hand Color.YELLOW > countColor hand Color.BLUE
                ∧ countColor hand Color.YELLOW > countColor hand Color.GREEN))) := by
  refine ⟨?_, ?_, ?_, ?_, ?_, ?_⟩
  · intro hh
    subst hh
    rfl
  · intro hh
    subst hh
    rfl
  · intro hh
    subst hh
    rfl
  · intro hh
    subst hh
    rfl
  · intro htruthy hne1 hne2 hne3 hne4
    cases hint with
    | none => simp [hintTruthy] at htruthy
    | some s =>
      have hs : choose_wild_color hand (some s) = colorMapGet s := by
        simp [choose_wild_color, htruthy]
      rw [hs]
      unfold colorMapGet
      split_ifs with a b c d
      · exact absurd (congrArg some a) hne1
      · exact absurd (congrArg some b) hne2
      · exact absurd (congrArg some c) hne3
      · exact absurd (congrArg some d) hne4
      · rfl
  · intro hfalsy
    have hs : choose_wild_color hand hint = maxColorByCount hand := by
      simp [choose_wild_color, hfalsy]
    rw [hs]
    unfold maxColorByCount
    simp only [List.foldl_cons, List.foldl_nil]
    split_ifs <;>
      refine ⟨by omega, ?_⟩ <;>
      first
        | exact Or.inl rfl
        | exact Or.inr (Or.inl ⟨rfl, by omega⟩)
        | exact Or.inr (Or.inr (Or.inl ⟨rfl, by omega, by omega⟩))
        | exact Or.inr (Or.inr (Or.inr ⟨rfl, by omega, by omega, by omega⟩))

/-- Witness for `choose_wild_color_characterization`: a valid hint of
Blue is followed even though the hand is all Green. -/
theorem choose_wild_color_characterization_witness :
    (some "Blue" : Option String) = some "Blue"
      ∧ choose_wild_color [⟨Color.GREEN, CardType.NUMBER, some 2⟩] (some "Blue")
          = Color.BLUE :=
  ⟨rfl, (choose_wild_color_characterization
    [⟨Color.GREEN, CardType.NUMBER, some 2⟩] (some "Blue")).2.1 rfl⟩

/-- Mirrors `class Player` (uno.py lines 332-353).  The display name and
the bound strategy object play no role in the engine transitions
verified here; the engine-relevant state is the hand and the
human-or-computer flag. -/
structure Player where
  hand : List Card
  is_computer : Bool
deriving DecidableEq

/-- Mirrors `Deck.draw_card` (uno.py lines 323-324): `self.cards.pop()`
removes the LAST element of the Python list (the top of the deck) and
returns `None` on an empty deck, together with the remaining deck. -/
def draw_card (cards : List Card) : Option Card × List Card :=
  match cards.getLast? with
  | some c => (some c, cards.dropLast)
  | none => (none, cards)

/-- Mirrors the mutable state of `UNOGame` (uno.py lines 356-366).  The
game always runs with exactly two players (`setup_game`, lines 470-473),
embedded as `player0` (the human) and `player1` (the computer); `winner`
holds the index of the winning player. -/
structure GameState where
  deck : List Card
  discard_pile : List Card
  player0 : Player
  player1 : Player
  current_player_index : Nat
  current_color : Color
  direction : Int
  game_over : Bool
  winner : Option Nat
deriving DecidableEq

/-- `self.players[i]` for the two-player list; Python's modulo in
`next_player` keeps the index in range, so lookup is by parity. -/
def getPlayer (s : GameState) (i : Nat) : Player :=
  if i % 2 = 0 then s.player0 else s.player1

/-- In-place mutation of `self.players[i]`. -/
def updPlayer (s : GameState) (i : Nat) (f : Player → Player) : GameState :=
  if i % 2 = 0 then { s with player0 := f s.player0 }
  else { s with player1 := f s.player1 }

/-- Mirrors `UNOGame.next_player` (uno.py lines 497-498):
`(self.current_player_index + self.direction) % len(self.players)` with
two players.  Python's `%` on a positive modulus yields a nonnegative
result, exactly `Int.emod`, so `toNat` is lossless. -/
def next_player (s : GameState) : GameState :=
  { s with current_player_index :=
      (((s.current_player_index : Int) + s.direction) % 2).toNat }

/-- Mirrors `UNOGame.reverse_direction` (uno.py lines 500-501). -/
def reverse_direction (s : GameState) : GameState :=
  { s with direction := s.direction * -1 }

/-- Mirrors `UNOGame.get_top_card` (uno.py lines 491-492).  Python
returns `None` on an empty discard pile, which would crash any caller
that plays on it; the discard pile is never empty once play has started,
so the junk default is unreachable in game flow. -/
def get_top_card (s : GameState) : Card := s.discard_pile.getLast?.getD dfltCard

/-- The active-color resolution of `UNOGame.play_card` (uno.py lines
643-657): a wild play asks the computer's `choose_wild_color` (with the
hand AFTER removal of the played card) or the human prompt, whose
validated result is the `human_color` parameter; any other card sets its
own color. -/
def resolve_color (s : GameState) (p : Nat) (card : Card)
    (wild_color_hint : Option String) (human_color : Color) : Color :=
  if card.card_type = CardType.WILD ∨ card.card_type = CardType.WILD_DRAW_FOUR then
    if (getPlayer s p).is_computer then
      choose_wild_color (getPlayer s p).hand wild_color_hint
    else human_color
  else card.color

/-- The forced-draw loops of `UNOGame.play_card` (uno.py lines 671-675
and 680-684): `for _ in range(n): new_card = self.deck.draw_card(); if
new_card: target_player.add_card(new_card)`.  No reshuffle happens here:
a draw from an empty deck is silently skipped. -/
def forceDraw (s : GameState) (target : Nat) : Nat → GameState
  | 0 => s
  | n + 1 =>
    match draw_card s.deck with
    | (some c, rest) =>
      forceDraw (updPlayer { s with deck := rest } target
        (fun pl => { pl with hand := pl.hand ++ [c] })) target n
    | (none, _) => forceDraw s target n

/-- Mirrors `UNOGame.play_card` (uno.py lines 637-688): remove the card
from the hand (Python `list.remove`, first occurrence, no-op when
absent, = `List.erase`), append it to the discard pile, resolve the
active color, resolve the kind-specific side effect (Skip and the draw
cards advance the turn pointer as part of the effect), then check for a
win: the winner is recorded and `game_over` set immediately, after the
side effect but before any end-of-turn advancement. -/
def play_card (s : GameState) (p : Nat) (card : Card)
    (wild_color_hint : Option String) (human_color : Color) : GameState :=
  let s1 := updPlayer s p (fun pl => { pl with hand := pl.hand.erase card })
  let s2 := { s1 with discard_pile := s1.discard_pile ++ [card] }
  let s3 := { s2 with current_color := resolve_color s2 p card wild_color_hint human_color }
  let s4 :=
    if card.card_type = CardType.SKIP then
      next_player s3
    else if card.card_type = CardType.REVERSE then
      reverse_direction s3
    else if card.card_type = CardType.DRAW_TWO then
      let t := next_player s3
      forceDraw t t.current_player_index 2
    else if card.card_type = CardType.WILD_DRAW_FOUR then
      let t := next_player s3
      forceDraw t t.current_player_index 4
    else s3
  if (getPlayer s4 p).hand.length = 0 then
    { s4 with game_over := true, winner := some (p % 2) }
  else s4

/-- Lines 703-704 of `UNOGame.play_game`: after the turn, advance the
current-player pointer unless the game is over. -/
def end_of_turn_advance (s : GameState) : GameState :=
  if s.game_over then s else next_player s

/-- Lines 706-712 of `UNOGame.play_game`: when the deck is empty and the
discard pile holds more than one card, every discard but the top goes
back into the deck (each inserted at index 0 via `Deck.add_card`) and
the deck is shuffled; the shuffle permutation is the parameter
`shuffleFn`. -/
def reshuffle_step (s : GameState) (shuffleFn : List Card → List Card) : GameState :=
  if s.deck.isEmpty ∧ s.discard_pile.length > 1 then
    { s with
        deck := shuffleFn (s.discard_pile.dropLast.foldl (fun d c => c :: d) s.deck),
        discard_pile := [s.discard_pile.getLast?.getD dfltCard] }
  else s

/-- The tail of one `play_game` loop iteration (uno.py lines 703-712):
conditional advance, then conditional reshuffle. -/
def game_loop_tail (s : GameState) (shuffleFn : List Card → List Card) : GameState :=
  reshuffle_step (end_of_turn_advance s) shuffleFn

/-- Mirrors `UNOGame.computer_turn` (uno.py lines 598-635).  With no
playable card the computer draws once and, when the drawn card is legal,
IMMEDIATELY plays it (lines 610-612); otherwise the strategy result —
embedded as the oracle `choose`, covering all three tiers — picks from
the playable cards.  `human_color` is the unused human-prompt parameter
of `play_card` (the computer path never reads it). -/
def computer_turn (s : GameState) (choose : List Card → Card × Option String)
    (human_color : Color) : GameState :=
  let p := s.current_player_index
  let pl := getPlayer s p
  let playable := pl.hand.filter (fun c => c.can_play_on (get_top_card s) s.current_color)
  if playable = [] then
    match draw_card s.deck with
    | (some c, rest) =>
      let s1 := updPlayer { s with deck := rest } p
        (fun q => { q with hand := q.hand ++ [c] })
      if c.can_play_on (get_top_card s1) s1.current_color then
        play_card s1 p c none human_color
      else s1
    | (none, _) => s
  else
    let choice := choose playable
    play_card s p choice.1 choice.2 human_color

/-- The dealing loop of `setup_game` (uno.py lines 475-479): seven
rounds, in each of which player 0 then player 1 draws one card (guarded
by `if card:`, a no-op on an exhausted deck). -/
def deal_rounds : Nat → List Card → List Card → List Card →
    List Card × List Card × List Card
  | 0, deck, h0, h1 => (deck, h0, h1)
  | n + 1, deck, h0, h1 =>
    let r0 := draw_card deck
    let h0' := match r0.1 with | some c => h0 ++ [c] | none => h0
    let r1 := draw_card r0.2
    let h1' := match r1.1 with | some c => h1 ++ [c] | none => h1
    deal_rounds n r1.2 h0' h1'

/-- The first-card flip loop of `setup_game` (uno.py lines 481-487): draw
until the drawn card is not a Wild / Wild Draw Four, then make it the
discard pile.  A drawn wild is NOT returned to the deck or the discard
pile — the loop simply draws again, so the card is dropped.  The fuel
argument (instantiated with the deck length) bounds the iteration; on an
exhausted deck the Python loop would spin forever, which no full deck
reaches. -/
def setup_flip_loop : Nat → List Card → List Card × List Card
  | 0, deck => (deck, [])
  | fuel + 1, deck =>
    match draw_card deck with
    | (some c, rest) =>
      if c.card_type = CardType.WILD ∨ c.card_type = CardType.WILD_DRAW_FOUR then
        setup_flip_loop fuel rest
      else (rest, [c])
    | (none, rest) => (rest, [])

/-- Total number of cards (deck + discard + both hands) once
`setup_game` has dealt the hands and flipped the first card, as a
function of the shuffled deck order. -/
def setup_counts (deck : List Card) : Nat :=
  let r := deal_rounds 7 deck [] []
  let f := setup_flip_loop r.1.length r.1
  f.1.length + f.2.length + r.2.1.length + r.2.2.length

/-- One possible shuffle order of the full 108-card deck: the fifteenth
card from the top — the first flip candidate after dealing seven cards
to each of the two players — is a Wild. -/
def badDeck : List Card :=
  numberCards ++ (actionCards.take 17
    ++ [Card.mk Color.WILD CardType.WILD none]
    ++ (actionCards.drop 17 ++ wildCards.drop 1))

/-- Claim C2: card conservation FAILS at setup.  `badDeck` is a
permutation of the full 108-card deck (i.e. a possible shuffle order).
Dealing leaves a Wild as the first flip candidate; the flip loop of
`setup_game` draws it, does not place it anywhere, and draws again, so
after setup only 107 cards remain across deck, discard pile and hands.
With a shuffle order whose first flip candidate is not wild (e.g. the
unshuffled build order), all 108 cards survive. -/
theorem setup_flip_loses_card :
    badDeck.Perm create_deck
      ∧ setup_counts badDeck = 107
      ∧ setup_counts create_deck = 108 := by
  refine ⟨by decide, by decide, by decide⟩

@[simp] lemma updPlayer_deck (s : GameState) (i : Nat) (f : Player → Player) :
    (updPlayer s i f).deck = s.deck := by
  unfold updPlayer
  split <;> rfl

@[simp] lemma updPlayer_discard (s : GameState) (i : Nat) (f : Player → Player) :
    (updPlayer s i f).discard_pile = s.discard_pile := by
  unfold updPlayer
  split <;> rfl

@[simp] lemma updPlayer_index (s : GameState) (i : Nat) (f : Player → Player) :
    (updPlayer s i f).current_player_index = s.current_player_index := by
  unfold updPlayer
  split <;> rfl

@[simp] lemma updPlayer_color (s : GameState) (i : Nat) (f : Player → Player) :
    (updPlayer s i f).current_color = s.current_color := by
  unfold updPlayer
  split <;> rfl

@[simp] lemma updPlayer_direction (s : GameState) (i : Nat) (f : Player → Player) :
    (updPlayer s i f).direction = s.direction := by
  unfold updPlayer
  split <;> rfl

@[simp] lemma updPlayer_game_over (s : GameState) (i : Nat) (f : Player → Player) :
    (updPlayer s i f).game_over = s.game_over := by
  unfold updPlayer
  split <;> rfl

@[simp] lemma updPlayer_winner (s : GameState) (i : Nat) (f : Player → Player) :
    (updPlayer s i f).winner = s.winner := by
  unfold updPlayer
  split <;> rfl

@[simp] lemma getPlayer_set_deck (s : GameState) (d : List Card) (t : Nat) :
    getPlayer { s with deck := d } t = getPlayer s t := rfl

@[simp] lemma getPlayer_set_discard (s : GameState) (d : List Card) (t : Nat) :
    getPlayer { s with discard_pile := d } t = getPlayer s t := rfl

@[simp] lemma getPlayer_set_color (s : GameState) (c : Color) (t : Nat) :
    getPlayer { s with current_color := c } t = getPlayer s t := rfl

@[simp] lemma getPlayer_set_index (s : GameState) (i : Nat) (t : Nat) :
    getPlayer { s with current_player_index := i } t = getPlayer s t := rfl

@[simp] lemma getPlayer_set_direction (s : GameState) (d : Int) (t : Nat) :
    getPlayer { s with direction := d } t = getPlayer s t := rfl

@[simp] lemma getPlayer_set_over_winner (s : GameState) (b : Bool) (w : Option Nat) (t : Nat) :
    getPlayer { s with game_over := b, winner := w } t = getPlayer s t := rfl

lemma getPlayer_updPlayer_self (s : GameState) (i : Nat) (f : Player → Player) :
    getPlayer (updPlayer s i f) i = f (getPlayer s i) := by
  unfold getPlayer updPlayer
  by_cases h : i % 2 = 0 <;> simp [h]

lemma getPlayer_updPlayer_ne (s : GameState) (i j : Nat) (f : Player → Player)
    (h : i % 2 ≠ j % 2) : getPlayer (updPlayer s i f) j = getPlayer s j := by
  by_cases hi : i % 2 = 0 <;> by_cases hj : j % 2 = 0
  · omega
  · simp [getPlayer, updPlayer, hi, hj]
  · simp [getPlayer, updPlayer, hi, hj]
  · omega

@[simp] lemma reshuffle_step_index (s : GameState) (f : List Card → List Card) :
    (reshuffle_step s f).current_player_index = s.current_player_index := by
  unfold reshuffle_step
  split <;> rfl

lemma draw_card_some (l : List Card) (c : Card) (h : l.getLast? = some c) :
    draw_card l = (some c, l.dropLast) := by
  unfold draw_card
  rw [h]

lemma draw_card_none (l : List Card) (h : l.getLast? = none) :
    draw_card l = (none, l) := by
  unfold draw_card
  rw [h]

lemma forceDraw_succ_some (s : GameState) (t n : Nat) (c : Card)
    (h : s.deck.getLast? = some c) :
    forceDraw s t (n + 1)
      = forceDraw (updPlayer { s with deck := s.deck.dropLast } t
          (fun pl => { pl with hand := pl.hand ++ [c] })) t n := by
  conv_lhs => rw [forceDraw]
  rw [draw_card_some _ _ h]

lemma forceDraw_succ_none (s : GameState) (t n : Nat)
    (h : s.deck.getLast? = none) :
    forceDraw s t (n + 1) = forceDraw s t n := by
  conv_lhs => rw [forceDraw]
  rw [draw_card_none _ h]

lemma forceDraw_empty (t : Nat) :
    ∀ (n : Nat) (s : GameState), s.deck = [] → forceDraw s t n = s := by
  intro n
  induction n with
  | zero =>
    intro s _
    rfl
  | succ n ih =>
    intro s hdeck
    have hl : s.deck.getLast? = none := by rw [hdeck]; rfl
    rw [forceDraw_succ_none s t n hl]
    exact ih s hdeck

lemma forceDraw_fields (t : Nat) :
    ∀ (n : Nat) (s : GameState),
      (forceDraw s t n).current_player_index = s.current_player_index
        ∧ (forceDraw s t n).direction = s.direction
        ∧ (forceDraw s t n).game_over = s.game_over
        ∧ (forceDraw s t n).winner = s.winner
        ∧ (forceDraw s t n).current_color = s.current_color
        ∧ (forceDraw s t n).discard_pile = s.discard_pile := by
  intro n
  induction n with
  | zero =>
    intro s
    exact ⟨rfl, rfl, rfl, rfl, rfl, rfl⟩
  | succ n ih =>
    intro s
    cases hl : s.deck.getLast? with
    | none =>
      rw [forceDraw_succ_none s t n hl]
      exact ih s
    | some c =>
      rw [forceDraw_succ_some s t n c hl]
      have h := ih (updPlayer { s with deck := s.deck.dropLast } t
        (fun pl => { pl with hand := pl.hand ++ [c] }))
      simpa using h

lemma forceDraw_other_player (t j : Nat) (hne : t % 2 ≠ j % 2) :
    ∀ (n : Nat) (s : GameState), getPlayer (forceDraw s t n) j = getPlayer s j := by
  intro n
  induction n with
  | zero =>
    intro s
    rfl
  | succ n ih =>
    intro s
    cases hl : s.deck.getLast? with
    | none =>
      rw [forceDraw_succ_none s t n hl]
      exact ih s
    | some c =>
      rw [forceDraw_succ_some s t n c hl]
      rw [ih _]
      rw [getPlayer_updPlayer_ne _ _ _ _ hne]
      simp

lemma forceDraw_target_hand (t : Nat) :
    ∀ (n : Nat) (s : GameState),
      (getPlayer (forceDraw s t n) t).hand.length
        = (getPlayer s t).hand.length + min n s.deck.length := by
  intro n
  induction n with
  | zero =>
    intro s
    simp [forceDraw]
  | succ n ih =>
    intro s
    cases hl : s.deck.getLast? with
    | none =>
      have hd : s.deck = [] := by
        cases hs : s.deck with
        | nil => rfl
        | cons a l =>
          rw [hs] at hl
          simp at hl
      rw [forceDraw_succ_none s t n hl, ih s, hd]
      simp
    | some c =>
      rw [forceDraw_succ_some s t n c hl, ih _]
      rw [getPlayer_updPlayer_self]
      have hne : s.deck ≠ [] := by
        intro hh
        rw [hh] at hl
        simp at hl
      have hpos : 0 < s.deck.length := List.length_pos.mpr hne
      simp [List.length_dropLast]
      omega

lemma two_player_next (p : Nat) (d : Int) (hp : p < 2) (hd : d = 1 ∨ d = -1) :
    (((p : Int) + d) % 2).toNat = 1 - p := by
  rcases hd with h | h <;> subst h <;> omega

lemma two_player_next_next (p : Nat) (d : Int) (hp : p < 2) (hd : d = 1 ∨ d = -1) :
    ((((((p : Int) + d) % 2).toNat : Int) + d) % 2).toNat = p := by
  rcases hd with h | h <;> subst h <;> omega

lemma two_player_next_flip (p : Nat) (d : Int) (hp : p < 2) (hd : d = 1 ∨ d = -1) :
    (((p : Int) + d * -1) % 2).toNat = 1 - p := by
  rcases hd with h | h <;> subst h <;> omega

@[simp] lemma getPlayer_mk (dk dp : List Card) (p0 p1 : Player) (ci : Nat) (cc : Color)
    (dir : Int) (go : Bool) (w : Option Nat) (t : Nat) :
    getPlayer (GameState.mk dk dp p0 p1 ci cc dir go w) t
      = if t % 2 = 0 then p0 else p1 := rfl

@[simp] lemma getPlayer_eta (s : GameState) (t : Nat) :
    (if t % 2 = 0 then s.player0 else s.player1) = getPlayer s t := rfl

/-- A small mid-game position used as a concrete counterexample input:
two players, player 0 (two cards, holding a Red Reverse) to act, a Red 5
on the discard pile, direction +1. -/
def cexStateC1 : GameState :=
  { deck := []
    discard_pile := [⟨Color.RED, CardType.NUMBER, some 5⟩]
    player0 := { hand := [⟨Color.RED, CardType.REVERSE, none⟩,
                          ⟨Color.BLUE, CardType.NUMBER, some 2⟩], is_computer := false }
    player1 := { hand := [⟨Color.GREEN, CardType.NUMBER, some 3⟩,
                          ⟨Color.YELLOW, CardType.NUMBER, some 7⟩], is_computer := true }
    current_player_index := 0
    current_color := Color.RED
    direction := 1
    game_over := false
    winner := none }

/-- Claim C1: with 2 players a Reverse is NOT behaviorally identical to a
Skip.  Player 0 plays the Red Reverse; after the end-of-turn advance of
the game loop the next player to act is player 1 (the opponent), not
player 0: with two players `(i + d) % 2` gives the same result for
`d = 1` and `d = -1`, so the direction flip has no observable effect on
the turn order. -/
theorem reverse_two_players_counterexample :
    (game_loop_tail
        (play_card cexStateC1 0 ⟨Color.RED, CardType.REVERSE, none⟩ none Color.RED)
        id).current_player_index = 1
      ∧ (1 : Nat) ≠ 0 := by
  decide

/-- Claim C1 (amended): with exactly 2 players, after the turn in which a
player plays a Reverse completes (direction flip, end-of-turn advance,
reshuffle check), the next player to act is the OPPONENT of the player
who reversed — the flip of `direction` is unobservable modulo 2 — whereas
after a Skip (extra advance plus end-of-turn advance) the SAME player
acts again. -/
theorem reverse_two_players_next_actor (s : GameState) (p : Nat) (c c' : Card)
    (hint hint' : Option String) (hcol hcol' : Color) (f : List Card → List Card)
    (hgo : s.game_over = false) (hp : s.current_player_index = p) (hplt : p < 2)
    (hd : s.direction = 1 ∨ s.direction = -1)
    (hc : c.card_type = CardType.REVERSE) (hc' : c'.card_type = CardType.SKIP)
    (hh : 2 ≤ (getPlayer s p).hand.length) :
    (game_loop_tail (play_card s p c hint hcol) f).current_player_index = 1 - p
      ∧ (play_card s p c hint hcol).direction = s.direction * -1
      ∧ (game_loop_tail (play_card s p c' hint' hcol') f).current_player_index = p := by
  have hnil : ¬ (getPlayer s p).hand.erase c = [] := by
    intro hh
    by_cases hm : c ∈ (getPlayer s p).hand
    · have := List.length_erase_of_mem hm
      rw [hh] at this
      simp at this
      omega
    · rw [List.erase_of_not_mem hm] at hh
      have hlen0 : (getPlayer s p).hand.length = 0 := by rw [hh]; rfl
      omega
  have hnil' : ¬ (getPlayer s p).hand.erase c' = [] := by
    intro hh
    by_cases hm : c' ∈ (getPlayer s p).hand
    · have := List.length_erase_of_mem hm
      rw [hh] at this
      simp at this
      omega
    · rw [List.erase_of_not_mem hm] at hh
      have hlen0 : (getPlayer s p).hand.length = 0 := by rw [hh]; rfl
      omega
  have h1 : (play_card s p c hint hcol).current_player_index = p := by
    simp [play_card, hc, resolve_color, reverse_direction, getPlayer_updPlayer_self,
      hnil, hp]
  have h2 : (play_card s p c hint hcol).direction = s.direction * -1 := by
    simp [play_card, hc, resolve_color, reverse_direction, getPlayer_updPlayer_self, hnil]
  have h3 : (play_card s p c hint hcol).game_over = false := by
    simp [play_card, hc, resolve_color, reverse_direction, getPlayer_updPlayer_self,
      hnil, hgo]
  refine ⟨?_, h2, ?_⟩
  · have hadv : (end_of_turn_advance (play_card s p c hint hcol)).current_player_index
        = (((p : Int) + s.direction * -1) % 2).toNat := by
      rw [end_of_turn_advance, if_neg (by rw [h3]; exact Bool.false_ne_true)]
      simp only [next_player]
      rw [h1, h2]
    rw [game_loop_tail, reshuffle_step_index, hadv]
    exact two_player_next_flip p s.direction hplt hd
  · have g1 : (play_card s p c' hint' hcol').current_player_index
        = ((((p : Int) + s.direction) % 2)).toNat := by
      simp [play_card, hc', resolve_color, next_player, getPlayer_updPlayer_self,
        hnil', hp]
    have g2 : (play_card s p c' hint' hcol').direction = s.direction := by
      simp [play_card, hc', resolve_color, next_player, getPlayer_updPlayer_self, hnil']
    have g3 : (play_card s p c' hint' hcol').game_over = false := by
      simp [play_card, hc', resolve_color, next_player, getPlayer_updPlayer_self,
        hnil', hgo]
    have hadv : (end_of_turn_advance (play_card s p c' hint' hcol')).current_player_index
        = ((((((p : Int) + s.direction) % 2).toNat : Int) + s.direction) % 2).toNat := by
      rw [end_of_turn_advance, if_neg (by rw [g3]; exact Bool.false_ne_true)]
      simp only [next_player]
      rw [g1, g2]
    rw [game_loop_tail, reshuffle_step_index, hadv]
    exact two_player_next_next p s.direction hplt hd

/-- Witness for `reverse_two_players_next_actor` on `cexStateC1` (and a
Green Skip for the contrast clause). -/
theorem reverse_two_players_next_actor_witness :
    cexStateC1.game_over = false ∧ cexStateC1.current_player_index = 0 ∧ (0 : Nat) < 2
      ∧ (cexStateC1.direction = 1 ∨ cexStateC1.direction = -1)
      ∧ (⟨Color.RED, CardType.REVERSE, none⟩ : Card).card_type = CardType.REVERSE
      ∧ (⟨Color.GREEN, CardType.SKIP, none⟩ : Card).card_type = CardType.SKIP
      ∧ 2 ≤ (getPlayer cexStateC1 0).hand.length
      ∧ (game_loop_tail
          (play_card cexStateC1 0 ⟨Color.RED, CardType.REVERSE, none⟩ none Color.RED)
          id).current_player_index = 1 - 0 :=
  ⟨rfl, rfl, by decide, Or.inl rfl, rfl, rfl, by decide,
    (reverse_two_players_next_actor cexStateC1 0
      ⟨Color.RED, CardType.REVERSE, none⟩ ⟨Color.GREEN, CardType.SKIP, none⟩
      none none Color.RED Color.RED id rfl rfl (by decide) (Or.inl rfl) rfl rfl
      (by decide)).1⟩

@[simp] lemma getPlayer_ite (c : Prop) [Decidable c] (a b : GameState) (t : Nat) :
    getPlayer (if c then a else b) t = if c then getPlayer a t else getPlayer b t := by
  split <;> rfl

@[simp] lemma deck_ite (c : Prop) [Decidable c] (a b : GameState) :
    (if c then a else b).deck = if c then a.deck else b.deck := by
  split <;> rfl

@[simp] lemma discard_ite (c : Prop) [Decidable c] (a b : GameState) :
    (if c then a else b).discard_pile = if c then a.discard_pile else b.discard_pile := by
  split <;> rfl

@[simp] lemma index_ite (c : Prop) [Decidable c] (a b : GameState) :
    (if c then a else b).current_player_index
      = if c then a.current_player_index else b.current_player_index := by
  split <;> rfl

@[simp] lemma game_over_ite (c : Prop) [Decidable c] (a b : GameState) :
    (if c then a else b).game_over = if c then a.game_over else b.game_over := by
  split <;> rfl

@[simp] lemma winner_ite (c : Prop) [Decidable c] (a b : GameState) :
    (if c then a else b).winner = if c then a.winner else b.winner := by
  split <;> rfl

@[simp] lemma direction_ite (c : Prop) [Decidable c] (a b : GameState) :
    (if c then a else b).direction = if c then a.direction else b.direction := by
  split <;> rfl

/-- A mid-game position with an empty deck, a two-card discard pile and
player 1 (one card) about to be hit by player 0's Draw Two. -/
def cexStateC3 : GameState :=
  { deck := []
    discard_pile := [⟨Color.BLUE, CardType.NUMBER, some 1⟩,
                     ⟨Color.RED, CardType.NUMBER, some 5⟩]
    player0 := { hand := [⟨Color.RED, CardType.DRAW_TWO, none⟩,
                          ⟨Color.BLUE, CardType.NUMBER, some 2⟩], is_computer := false }
    player1 := { hand := [⟨Color.GREEN, CardType.NUMBER, some 3⟩], is_computer := true }
    current_player_index := 0
    current_color := Color.RED
    direction := 1
    game_over := false
    winner := none }

/-- Claim C3: during the forced draws of a Draw Two no reshuffle is
triggered even though the discard pile below the top card is non-empty:
player 1's hand receives none of the 2 forced cards (it is unchanged)
and the deck stays empty. -/
theorem forced_draw_skip_counterexample :
    cexStateC3.discard_pile.dropLast ≠ []
      ∧ (getPlayer (play_card cexStateC3 0
            ⟨Color.RED, CardType.DRAW_TWO, none⟩ none Color.RED) 1).hand
          = [⟨Color.GREEN, CardType.NUMBER, some 3⟩]
      ∧ (play_card cexStateC3 0
            ⟨Color.RED, CardType.DRAW_TWO, none⟩ none Color.RED).deck = [] := by
  decide

/-- Claim C3 (amended): the forced draws caused by a DrawTwo or
WildDrawFour never trigger a reshuffle: whenever the deck is empty when
the card is played, every forced draw is silently skipped — regardless
of the discard pile's contents — leaving the target hand unchanged and
the deck empty (the discard pile only gains the played card).  Reshuffle
happens only in the main loop after the full turn. -/
theorem forced_draw_empty_deck_no_reshuffle (s : GameState) (p : Nat) (c : Card)
    (hint : Option String) (hcol : Color)
    (hdeck : s.deck = []) (hp : p < 2)
    (hc : c.card_type = CardType.DRAW_TWO ∨ c.card_type = CardType.WILD_DRAW_FOUR) :
    (getPlayer (play_card s p c hint hcol) (1 - p)).hand = (getPlayer s (1 - p)).hand
      ∧ (play_card s p c hint hcol).deck = []
      ∧ (play_card s p c hint hcol).discard_pile = s.discard_pile ++ [c] := by
  have hne : p % 2 ≠ (1 - p) % 2 := by omega
  have hup : ∀ (s' : GameState) (f' : Player → Player),
      getPlayer (updPlayer s' p f') (1 - p) = getPlayer s' (1 - p) :=
    fun s' f' => getPlayer_updPlayer_ne s' p (1 - p) f' hne
  rcases hc with hc | hc <;>
    simp [play_card, hc, resolve_color, next_player, forceDraw_empty, hdeck, hup]

/-- Witness for `forced_draw_empty_deck_no_reshuffle` at `cexStateC3`. -/
theorem forced_draw_empty_deck_no_reshuffle_witness :
    cexStateC3.deck = [] ∧ (0 : Nat) < 2
      ∧ ((⟨Color.RED, CardType.DRAW_TWO, none⟩ : Card).card_type = CardType.DRAW_TWO
          ∨ (⟨Color.RED, CardType.DRAW_TWO, none⟩ : Card).card_type
            = CardType.WILD_DRAW_FOUR)
      ∧ (getPlayer (play_card cexStateC3 0
            ⟨Color.RED, CardType.DRAW_TWO, none⟩ none Color.RED) (1 - 0)).hand
          = (getPlayer cexStateC3 (1 - 0)).hand :=
  ⟨rfl, by decide, Or.inl rfl,
    (forced_draw_empty_deck_no_reshuffle cexStateC3 0
      ⟨Color.RED, CardType.DRAW_TWO, none⟩ none Color.RED rfl (by decide)
      (Or.inl rfl)).1⟩

/-- Claim C9: if the active player's hand empties with the played card,
the game transitions to game-over with that player as winner immediately
— after the side effect of the played card has fully resolved on the
other player (a Draw Two / Wild Draw Four still force-draws into the
opponent's hand, a Skip still advances, a Reverse still flips) and
before the end-of-turn advancement, which is then suppressed
(`end_of_turn_advance` leaves the state unchanged). -/
theorem play_card_win_check (s : GameState) (p : Nat) (c : Card)
    (hint : Option String) (hcol : Color)
    (hp : p < 2) (hpi : s.current_player_index = p)
    (hd : s.direction = 1 ∨ s.direction = -1)
    (hhand : (getPlayer s p).hand = [c]) :
    (play_card s p c hint hcol).game_over = true
      ∧ (play_card s p c hint hcol).winner = some p
      ∧ (getPlayer (play_card s p c hint hcol) p).hand = []
      ∧ (c.card_type = CardType.DRAW_TWO →
          (getPlayer (play_card s p c hint hcol) (1 - p)).hand.length
            = (getPlayer s (1 - p)).hand.length + min 2 s.deck.length)
      ∧ (c.card_type = CardType.WILD_DRAW_FOUR →
          (getPlayer (play_card s p c hint hcol) (1 - p)).hand.length
            = (getPlayer s (1 - p)).hand.length + min 4 s.deck.length)
      ∧ (c.card_type = CardType.SKIP →
          (play_card s p c hint hcol).current_player_index = 1 - p)
      ∧ (c.card_type = CardType.REVERSE →
          (play_card s p c hint hcol).direction = s.direction * -1)
      ∧ end_of_turn_advance (play_card s p c hint hcol)
          = play_card s p c hint hcol := by
  have hpmod : p % 2 = p := Nat.mod_eq_of_lt hp
  have he : (getPlayer s p).hand.erase c = [] := by
    rw [hhand, List.erase_cons_head]
  have hT : (((p : Int) + s.direction) % 2).toNat = 1 - p :=
    two_player_next p s.direction hp hd
  have hne : p % 2 ≠ (1 - p) % 2 := by omega
  have hup : ∀ (s' : GameState) (f' : Player → Player),
      getPlayer (updPlayer s' p f') (1 - p) = getPlayer s' (1 - p) :=
    fun s' f' => getPlayer_updPlayer_ne s' p (1 - p) f' hne
  have hother : ∀ (n : Nat) (x : GameState),
      getPlayer (forceDraw x (1 - p) n) p = getPlayer x p :=
    forceDraw_other_player (1 - p) p (by omega)
  have htarget := forceDraw_target_hand (1 - p)
  cases hct : c.card_type with
  | NUMBER =>
    have hgo1 : (play_card s p c hint hcol).game_over = true := by
      simp [play_card, hct, resolve_color, he, getPlayer_updPlayer_self]
    refine ⟨hgo1, ?_, ?_, ?_, ?_, ?_, ?_, ?_⟩
    · have hw : (play_card s p c hint hcol).winner = some (p % 2) := by
        simp [play_card, hct, resolve_color, he, getPlayer_updPlayer_self]
      rw [hw, hpmod]
    · simp [play_card, hct, resolve_color, he, getPlayer_updPlayer_self]
    · simp [hct]
    · simp [hct]
    · simp [hct]
    · simp [hct]
    · rw [end_of_turn_advance, if_pos hgo1]
  | WILD =>
    have hgo1 : (play_card s p c hint hcol).game_over = true := by
      simp [play_card, hct, resolve_color, he, getPlayer_updPlayer_self]
    refine ⟨hgo1, ?_, ?_, ?_, ?_, ?_, ?_, ?_⟩
    · have hw : (play_card s p c hint hcol).winner = some (p % 2) := by
        simp [play_card, hct, resolve_color, he, getPlayer_updPlayer_self]
      rw [hw, hpmod]
    · simp [play_card, hct, resolve_color, he, getPlayer_updPlayer_self]
    · simp [hct]
    · simp [hct]
    · simp [hct]
    · simp [hct]
    · rw [end_of_turn_advance, if_pos hgo1]
  | SKIP =>
    have hgo1 : (play_card s p c hint hcol).game_over = true := by
      simp [play_card, hct, resolve_color, next_player, he, getPlayer_updPlayer_self]
    refine ⟨hgo1, ?_, ?_, ?_, ?_, ?_, ?_, ?_⟩
    · have hw : (play_card s p c hint hcol).winner = some (p % 2) := by
        simp [play_card, hct, resolve_color, next_player, he, getPlayer_updPlayer_self]
      rw [hw, hpmod]
    · simp [play_card, hct, resolve_color, next_player, he, getPlayer_updPlayer_self]
    · simp [hct]
    · simp [hct]
    · intro _
      simp [play_card, hct, resolve_color, next_player, he, getPlayer_updPlayer_self,
        hpi, hT]
    · simp [hct]
    · rw [end_of_turn_advance, if_pos hgo1]
  | REVERSE =>
    have hgo1 : (play_card s p c hint hcol).game_over = true := by
      simp [play_card, hct, resolve_color, reverse_direction, he,
        getPlayer_updPlayer_self]
    refine ⟨hgo1, ?_, ?_, ?_, ?_, ?_, ?_, ?_⟩
    · have hw : (play_card s p c hint hcol).winner = some (p % 2) := by
        simp [play_card, hct, resolve_color, reverse_direction, he,
          getPlayer_updPlayer_self]
      rw [hw, hpmod]
    · simp [play_card, hct, resolve_color, reverse_direction, he,
        getPlayer_updPlayer_self]
    · simp [hct]
    · simp [hct]
    · simp [hct]
    · intro _
      simp [play_card, hct, resolve_color, reverse_direction, he,
        getPlayer_updPlayer_self]
    · rw [end_of_turn_advance, if_pos hgo1]
  | DRAW_TWO =>
    have hgo1 : (play_card s p c hint hcol).game_over = true := by
      simp [play_card, hct, resolve_color, next_player, he, getPlayer_updPlayer_self,
        hpi, hT, hother]
    refine ⟨hgo1, ?_, ?_, ?_, ?_, ?_, ?_, ?_⟩
    · have hw : (play_card s p c hint hcol).winner = some (p % 2) := by
        simp [play_card, hct, resolve_color, next_player, he, getPlayer_updPlayer_self,
          hpi, hT, hother]
      rw [hw, hpmod]
    · simp [play_card, hct, resolve_color, next_player, he, getPlayer_updPlayer_self,
        hpi, hT, hother]
    · intro _
      simp [play_card, hct, resolve_color, next_player, he, getPlayer_updPlayer_self,
        hpi, hT, hother, htarget, hup]
    · simp [hct]
    · simp [hct]
    · simp [hct]
    · rw [end_of_turn_advance, if_pos hgo1]
  | WILD_DRAW_FOUR =>
    have hgo1 : (play_card s p c hint hcol).game_over = true := by
      simp [play_card, hct, resolve_color, next_player, he, getPlayer_updPlayer_self,
        hpi, hT, hother]
    refine ⟨hgo1, ?_, ?_, ?_, ?_, ?_, ?_, ?_⟩
    · have hw : (play_card s p c hint hcol).winner = some (p % 2) := by
        simp [play_card, hct, resolve_color, next_player, he, getPlayer_updPlayer_self,
          hpi, hT, hother]
      rw [hw, hpmod]
    · simp [play_card, hct, resolve_color, next_player, he, getPlayer_updPlayer_self,
        hpi, hT, hother]
    · simp [hct]
    · intro _
      simp [play_card, hct, resolve_color, next_player, he, getPlayer_updPlayer_self,
        hpi, hT, hother, htarget, hup]
    · simp [hct]
    · simp [hct]
    · rw [end_of_turn_advance, if_pos hgo1]

/-- A position in which player 0 is one Number card from winning. -/
def cexStateC9 : GameState :=
  { deck := [⟨Color.YELLOW, CardType.NUMBER, some 1⟩]
    discard_pile := [⟨Color.RED, CardType.NUMBER, some 3⟩]
    player0 := { hand := [⟨Color.RED, CardType.NUMBER, some 5⟩], is_computer := false }
    player1 := { hand := [⟨Color.BLUE, CardType.NUMBER, some 7⟩,
                          ⟨Color.GREEN, CardType.NUMBER, some 2⟩], is_computer := true }
    current_player_index := 0
    current_color := Color.RED
    direction := 1
    game_over := false
    winner := none }

/-- Witness for `play_card_win_check` at `cexStateC9`: player 0 plays
their last card (a Red 5) and the game is over with player 0 as winner. -/
theorem play_card_win_check_witness :
    (0 : Nat) < 2 ∧ cexStateC9.current_player_index = 0
      ∧ (cexStateC9.direction = 1 ∨ cexStateC9.direction = -1)
      ∧ (getPlayer cexStateC9 0).hand = [⟨Color.RED, CardType.NUMBER, some 5⟩]
      ∧ (play_card cexStateC9 0 ⟨Color.RED, CardType.NUMBER, some 5⟩ none
          Color.RED).game_over = true :=
  ⟨by decide, rfl, Or.inl rfl, by decide,
    (play_card_win_check cexStateC9 0 ⟨Color.RED, CardType.NUMBER, some 5⟩ none
      Color.RED (by decide) rfl (Or.inl rfl) (by decide)).1⟩

@[simp] lemma forceDraw_discard (t n : Nat) (s : GameState) :
    (forceDraw s t n).discard_pile = s.discard_pile :=
  (forceDraw_fields t n s).2.2.2.2.2

lemma play_card_discard (s : GameState) (p : Nat) (c : Card)
    (hint : Option String) (hcol : Color) :
    (play_card s p c hint hcol).discard_pile = s.discard_pile ++ [c] := by
  simp [play_card, next_player, reverse_direction]

@[simp] lemma get_top_card_updPlayer (s : GameState) (i : Nat) (f : Player → Player) :
    get_top_card (updPlayer s i f) = get_top_card s := by
  unfold get_top_card
  rw [updPlayer_discard]

@[simp] lemma get_top_card_set_deck (s : GameState) (d : List Card) :
    get_top_card { s with deck := d } = get_top_card s := rfl

@[simp] lemma get_top_card_mk (dk dp : List Card) (p0 p1 : Player) (ci : Nat) (cc : Color)
    (dir : Int) (go : Bool) (w : Option Nat) :
    get_top_card (GameState.mk dk dp p0 p1 ci cc dir go w)
      = dp.getLast?.getD dfltCard := rfl

@[simp] lemma get_top_card_eta (s : GameState) :
    s.discard_pile.getLast?.getD dfltCard = get_top_card s := rfl

/-- A position in which the computer (player 1) has no playable card and
the top of the deck (a Red 9) is legal on the Red 5 top card. -/
def cexStateC5 : GameState :=
  { deck := [⟨Color.RED, CardType.NUMBER, some 9⟩]
    discard_pile := [⟨Color.RED, CardType.NUMBER, some 5⟩]
    player0 := { hand := [⟨Color.GREEN, CardType.NUMBER, some 1⟩], is_computer := false }
    player1 := { hand := [⟨Color.BLUE, CardType.NUMBER, some 7⟩], is_computer := true }
    current_player_index := 1
    current_color := Color.RED
    direction := 1
    game_over := false
    winner := none }

/-- Claim C5: the automated player does NOT decline a legal drawn card.
With no playable card it draws the Red 9, which is legal, and plays it
immediately: the drawn card lands on the discard pile (a play happened),
the hand is back to its original single card, and the deck is empty. -/
theorem computer_plays_drawn_card_counterexample :
    (computer_turn cexStateC5 (fun l => (l.headD dfltCard, none))
        Color.RED).discard_pile
      = [⟨Color.RED, CardType.NUMBER, some 5⟩, ⟨Color.RED, CardType.NUMBER, some 9⟩]
  ∧ (getPlayer (computer_turn cexStateC5 (fun l => (l.headD dfltCard, none))
        Color.RED) 1).hand
      = [⟨Color.BLUE, CardType.NUMBER, some 7⟩]
  ∧ (computer_turn cexStateC5 (fun l => (l.headD dfltCard, none)) Color.RED).deck
      = [] := by
  decide

/-- Claim C5 (amended): when the automated player has no playable card it
draws exactly one card; if the drawn card is legal against the current
top card and active color it is ALWAYS auto-played immediately (the
drawn card is appended to the discard pile); only when the drawn card is
illegal does the turn end with no play, the hand having grown by that
card. -/
theorem computer_turn_drawn_card_behavior (s : GameState)
    (choose : List Card → Card × Option String) (hcol : Color) (c : Card)
    (hplay : (getPlayer s s.current_player_index).hand.filter
        (fun k => k.can_play_on (get_top_card s) s.current_color) = [])
    (hdraw : s.deck.getLast? = some c) :
    (c.can_play_on (get_top_card s) s.current_color = true →
        (computer_turn s choose hcol).discard_pile = s.discard_pile ++ [c])
  ∧ (c.can_play_on (get_top_card s) s.current_color = false →
        (computer_turn s choose hcol).discard_pile = s.discard_pile
      ∧ getPlayer (computer_turn s choose hcol) s.current_player_index
          = { getPlayer s s.current_player_index with
                hand := (getPlayer s s.current_player_index).hand ++ [c] }
      ∧ (computer_turn s choose hcol).deck = s.deck.dropLast) := by
  constructor
  · intro h1
    simp [computer_turn, hplay, draw_card_some _ _ hdraw, h1, play_card_discard]
  · intro h2
    refine ⟨?_, ?_, ?_⟩
    · simp [computer_turn, hplay, draw_card_some _ _ hdraw, h2]
    · simp [computer_turn, hplay, draw_card_some _ _ hdraw, h2,
        getPlayer_updPlayer_self]
    · simp [computer_turn, hplay, draw_card_some _ _ hdraw, h2]

/-- Witness for `computer_turn_drawn_card_behavior` at `cexStateC5`. -/
theorem computer_turn_drawn_card_behavior_witness :
    (getPlayer cexStateC5 cexStateC5.current_player_index).hand.filter
        (fun k => k.can_play_on (get_top_card cexStateC5) cexStateC5.current_color) = []
      ∧ cexStateC5.deck.getLast? = some ⟨Color.RED, CardType.NUMBER, some 9⟩
      ∧ (computer_turn cexStateC5 (fun l => (l.headD dfltCard, none))
            Color.RED).discard_pile
          = cexStateC5.discard_pile ++ [⟨Color.RED, CardType.NUMBER, some 9⟩] :=
  ⟨by decide, rfl,
    (computer_turn_drawn_card_behavior cexStateC5 (fun l => (l.headD dfltCard, none))
      Color.RED ⟨Color.RED, CardType.NUMBER, some 9⟩ (by decide) rfl).1 (by decide)⟩
